import Mathlib

/-!
Verification of the ChatKit panel component (`src/components/ChatKitPanel.tsx`):
a shallow embedding of its data model (error channels, script status, processed
facts, streaming latch, one-slot click queue) and of its operations
(`extractErrorDetail`, `getClientSecret`, the widget action bridge, the client
tool dispatcher, response start/end handlers, reset), together with theorems
settling the specification's claims about them.

Modelling conventions: JavaScript values occurring in the component are embedded
as `JsonVal`; property access `x?.k` is `getField`; the nullish-coalescing
operator `??` skips `none` (absent) and `JsonVal.null`; JS truthiness is
`¬ jsFalsy`; `String(x)` is `jsToString`.  The component is modelled in its
mounted state (the `isMountedRef.current` guards are `true`; an unmounted
component performs no state mutation at all).  The browser environment is
abstracted by an `elementRegistered : Bool` flag standing for
`window.customElements.get("openai-chatkit")` being defined.
-/

namespace ChatKitPanel

/-- JSON-like runtime values, as produced by `JSON.parse` and passed around in
the component's payloads. -/
inductive JsonVal : Type where
  | str (s : String)
  | num (n : Int)
  | bool (b : Bool)
  | null
  | obj (fields : List (String × JsonVal))
  | arr (elems : List JsonVal)
  deriving Repr, Inhabited

namespace JsonVal

/-- Property access `v?.k`: yields the field's value on an object, `none`
(i.e. JS `undefined`) on anything else — numbers, strings, arrays without such
a key, `null`.  Models both `payload?.k` and the `"k" in o` + access pattern
used in `extractErrorDetail`. -/
def getField : JsonVal → String → Option JsonVal
  | obj fields, k => fields.lookup k
  | _, _ => none

end JsonVal

open JsonVal

/-- JS falsiness of a value: `""`, `0`, `false`, `null` are falsy; objects and
arrays are truthy. -/
def jsFalsy : JsonVal → Bool
  | .str s => s = ""
  | .num n => n = 0
  | .bool b => !b
  | .null => true
  | .obj _ => false
  | .arr _ => false

mutual

/-- The JS `String(x)` conversion for embedded values. -/
def jsToString : JsonVal → String
  | .str s => s
  | .num n => toString n
  | .bool b => bif b then "true" else "false"
  | .null => "null"
  | .obj _ => "[object Object]"
  | .arr l => String.intercalate "," (jsToStringList l)

/-- Elementwise stringification of an array (`Array.prototype.toString`);
`null` elements render as the empty string. -/
def jsToStringList : List JsonVal → List String
  | [] => []
  | .null :: vs => "" :: jsToStringList vs
  | v :: vs => jsToString v :: jsToStringList vs

end

/-- JS `x ?? ""` followed by `String(·)`: absent and `null` become `""`. -/
def jsCoalesceString (v : Option JsonVal) : String :=
  match v with
  | none => ""
  | some .null => ""
  | some v => jsToString v

/-- Extraction of a human-readable error detail from an error-response payload,
embedding `extractErrorDetail` of `ChatKitPanel.tsx`: top-level string `error`,
else string `error.message`, else string `details`, else string `details.error`,
else string `details.error.message`, else string `message`, else the fallback. -/
def extractErrorDetail (payload : JsonVal) (fallback : String) : String :=
  let error := payload.getField "error"
  match error with
  | some (.str s) => s
  | _ =>
    match error.bind (·.getField "message") with
    | some (.str m) => m
    | _ =>
      let details := payload.getField "details"
      match details with
      | some (.str s) => s
      | _ =>
        let nested := details.bind (·.getField "error")
        match nested with
        | some (.str s) => s
        | _ =>
          match nested.bind (·.getField "message") with
          | some (.str m) => m
          | _ =>
            match payload.getField "message" with
            | some (.str m) => m
            | _ => fallback

/-- The value of an optional field when it is a string, `none` otherwise. -/
def asString : Option JsonVal → Option String
  | some (.str s) => some s
  | _ => none

/-- First `some` in a list of probes, `none` when every probe misses. -/
def firstSome : List (Option String) → Option String
  | [] => none
  | some s :: _ => some s
  | none :: rest => firstSome rest

/-- The specification's probing order for error details, written as a
first-match scan over the six probes named by the spec. -/
def extractErrorDetailSpec (payload : JsonVal) (fallback : String) : String :=
  (firstSome
    [ asString (payload.getField "error")
    , asString ((payload.getField "error").bind (·.getField "message"))
    , asString (payload.getField "details")
    , asString ((payload.getField "details").bind (·.getField "error"))
    , asString (((payload.getField "details").bind (·.getField "error")).bind
        (·.getField "message"))
    , asString (payload.getField "message") ]).getD fallback

/-- Script loading status of the widget's web component
(`scriptStatus` in `ChatKitPanel.tsx`). -/
inductive ScriptStatus : Type where
  | pending
  | ready
  | error
  deriving Repr, DecidableEq, Inhabited

/-- The four fault channels of the panel (`ErrorState` in the source). -/
structure ErrorState : Type where
  script : Option String
  session : Option String
  integration : Option String
  retryable : Bool
  deriving Repr, DecidableEq, Inhabited

/-- The all-clear error record produced by `createInitialErrors`. -/
def createInitialErrors : ErrorState :=
  { script := none, session := none, integration := none, retryable := false }

/-- The panel's mutable state: the error channels, the initializing flag, the
script status, the widget instance key, the processed-fact set
(`processedFacts`, a set of strings, here a duplicate-free-by-use list), the
streaming latch (`isRespondingRef`) and the one-slot click queue
(`queuedClickRef`). -/
structure PanelState : Type where
  errors : ErrorState
  isInitializingSession : Bool
  scriptStatus : ScriptStatus
  widgetInstanceKey : Nat
  processedFacts : List String
  isResponding : Bool
  queuedClick : Option String
  deriving Repr, DecidableEq, Inhabited

/-- State at mount: all error channels clear, initializing, script status
`ready` iff the custom element is already registered, counter 0, no processed
facts, not responding, empty queue slot. -/
def initialPanelState (elementRegistered : Bool) : PanelState :=
  { errors := createInitialErrors
    isInitializingSession := true
    scriptStatus := if elementRegistered then .ready else .pending
    widgetInstanceKey := 0
    processedFacts := []
    isResponding := false
    queuedClick := none }

/-- The `handleLoaded` listener of the script-readiness effect: status `ready`,
script channel cleared. -/
def handleScriptLoaded (s : PanelState) : PanelState :=
  { s with scriptStatus := .ready
           errors := { s.errors with script := none } }

/-- The `handleError` listener of the script-readiness effect: status `error`,
script channel set (prefixed with `Error: ` as in the source), not retryable,
initializing cleared. -/
def handleScriptError (detail : String) (s : PanelState) : PanelState :=
  { s with scriptStatus := .error
           errors := { s.errors with script := some ("Error: " ++ detail)
                                     retryable := false }
           isInitializingSession := false }

/-- The 5-second fallback timeout: if the custom element is still unregistered
when it fires, it synthesizes a script error with a descriptive message. -/
def scriptTimeout (elementRegistered : Bool) (s : PanelState) : PanelState :=
  if elementRegistered then s
  else handleScriptError
    "ChatKit web component is unavailable. Verify the script URL." s

/-- `Boolean(WORKFLOW_ID && !WORKFLOW_ID.startsWith("wf_replace"))`. -/
def isWorkflowConfigured (workflowId : String) : Bool :=
  !(workflowId = "") && !(workflowId.startsWith "wf_replace")

/-- The effect that runs when the workflow identifier is not configured:
session channel set to the fixed configuration message, not retryable,
initializing cleared. -/
def markWorkflowUnconfigured (s : PanelState) : PanelState :=
  { s with errors := { s.errors with
             session := some "Set NEXT_PUBLIC_CHATKIT_WORKFLOW_ID in your .env.local file."
             retryable := false }
           isInitializingSession := false }

/-- `handleResetChat`: clear the processed-fact set, recompute script status
from the environment, force initializing, restore the all-clear error record,
bump the widget instance key.  The streaming latch and queue slot are refs the
reset does not touch. -/
def handleResetChat (elementRegistered : Bool) (s : PanelState) : PanelState :=
  { s with processedFacts := []
           scriptStatus := if elementRegistered then .ready else .pending
           isInitializingSession := true
           errors := createInitialErrors
           widgetInstanceKey := s.widgetInstanceKey + 1 }

/-- An HTTP response as observed by `getClientSecret`: the `ok` flag and
status text of `fetch`'s resolution, the raw body text, and the outcome of
`JSON.parse` on that raw text (`none` models a parse exception). -/
structure HttpResponse : Type where
  ok : Bool
  statusText : String
  raw : String
  parsed : Option JsonVal
  deriving Repr, Inhabited

/-- The `data` record of `getClientSecret`: starts as `{}`, replaced by the
parse result only when the body is non-empty and parses. -/
def responseData (r : HttpResponse) : JsonVal :=
  if r.raw = "" then .obj []
  else
    match r.parsed with
    | some v => v
    | none => .obj []

/-- `(data?.client_secret as string) ?? ""` — the value the missing-secret
check and the resolution use. -/
def clientSecretOf (r : HttpResponse) : JsonVal :=
  match (responseData r).getField "client_secret" with
  | none => .str ""
  | some .null => .str ""
  | some v => v

/-- The session provisioner `getClientSecret`, as a pure function of the
workflow identifier, the current secret (`none` on initial provisioning), the
outcome of `fetch` (`Except.error` models a rejected fetch, carrying the
error's message) and the panel state.  Returns the promise outcome (resolved
secret or rejection message) and the updated state.  The mounted guards are
taken as true. -/
def getClientSecret (workflowId : String) (currentSecret : Option String)
    (fetchResult : Except String HttpResponse) (s : PanelState) :
    Except String JsonVal × PanelState :=
  if !isWorkflowConfigured workflowId then
    let detail := "Set NEXT_PUBLIC_CHATKIT_WORKFLOW_ID in your .env.local file."
    (.error detail,
     { s with errors := { s.errors with session := some detail, retryable := false }
              isInitializingSession := false })
  else
    let s0 : PanelState :=
      { s with isInitializingSession :=
                 if currentSecret.isNone then true else s.isInitializingSession
               errors := { s.errors with session := none, integration := none
                                         retryable := false } }
    let (result, s1) :=
      match fetchResult with
      | .error msg =>
        (Except.error msg,
         { s0 with errors := { s0.errors with session := some msg, retryable := false } })
      | .ok resp =>
        if !resp.ok then
          let detail := extractErrorDetail (responseData resp) resp.statusText
          (Except.error detail,
           { s0 with errors := { s0.errors with session := some detail, retryable := false } })
        else if jsFalsy (clientSecretOf resp) then
          let detail := "Missing client secret in response"
          (Except.error detail,
           { s0 with errors := { s0.errors with session := some detail, retryable := false } })
        else
          (Except.ok (clientSecretOf resp),
           { s0 with errors := { s0.errors with session := none, integration := none } })
    (result,
     if currentSecret.isNone then { s1 with isInitializingSession := false } else s1)

/-- A widget action event `(action, item)` as received by `widgets.onAction`:
the action's type tag (a string, always present) and its payload, which may be
absent or any JS value. -/
structure WidgetAction : Type where
  type : String
  payload : Option JsonVal
  deriving Repr, Inhabited

/-- Field access for a `??` chain: `payload?.k`, where both an absent field and
a `null` field count as nullish and make `??` move on. -/
def nullishField (payload : Option JsonVal) (k : String) : Option JsonVal :=
  match payload.bind (·.getField k) with
  | some .null => none
  | v => v

/-- The derived display value of a widget action, embedding
`payload?.text ?? payload?.label ?? payload?.value ?? action?.type ?? ""`
(the action's type tag is a string and is never nullish, so the final `?? ""`
never fires). -/
def deriveActionValue (a : WidgetAction) : JsonVal :=
  match nullishField a.payload "text" with
  | some v => v
  | none =>
    match nullishField a.payload "label" with
    | some v => v
    | none =>
      match nullishField a.payload "value" with
      | some v => v
      | none => .str a.type

/-- First present (non-nullish) value in a list of probes, with a default. -/
def firstPresent : List (Option JsonVal) → JsonVal → JsonVal
  | [], d => d
  | some v :: _, _ => v
  | none :: rest, d => firstPresent rest d

/-- The amended specification of the display-value derivation: the first
present (non-nullish) of the payload's `text`, `label`, `value` (the `option`
key is not probed by this component), defaulting to the action's type tag. -/
def deriveActionValueSpec (a : WidgetAction) : JsonVal :=
  firstPresent
    [ nullishField a.payload "text"
    , nullishField a.payload "label"
    , nullishField a.payload "value" ]
    (.str a.type)

/-- `action.payload ?? {}`, the payload forwarded by `sendAction`. -/
def actionPayloadOrEmpty (a : WidgetAction) : JsonVal :=
  match a.payload with
  | none => .obj []
  | some .null => .obj []
  | some v => v

/-- The `widgets.onAction` handler.  Returns the new state, the user-visible
messages sent via `sendUserMessage`, and the structured actions forwarded via
`sendAction`.  A falsy derived value means the action is ignored (handled,
no-op); while the streaming latch is set the text is stored in the one-slot
queue instead of being sent. -/
def widgetsOnAction (a : WidgetAction) (s : PanelState) :
    PanelState × List String × List (String × JsonVal) :=
  let textVal := deriveActionValue a
  if jsFalsy textVal then (s, [], [])
  else if s.isResponding then
    ({ s with queuedClick := some (jsToString textVal) }, [], [])
  else
    (s, [jsToString textVal], [(a.type, actionPayloadOrEmpty a)])

/-- The `onResponseStart` callback: streaming latch set, integration channel
cleared, not retryable. -/
def handleResponseStart (s : PanelState) : PanelState :=
  { s with isResponding := true
           errors := { s.errors with integration := none, retryable := false } }

/-- The `onResponseEnd` callback: streaming latch cleared, then — after the
external `onResponseEnd` notification — a truthy queued click is taken out of
the slot and sent via `sendUserMessage`.  Returns the new state and the flushed
messages.  (A queued empty string is falsy, hence neither sent nor cleared;
the bridge only ever queues truthy-derived text.) -/
def handleResponseEnd (s : PanelState) : PanelState × List String :=
  let s1 := { s with isResponding := false }
  match s1.queuedClick with
  | some t =>
    if t = "" then (s1, [])
    else ({ s1 with queuedClick := none }, [t])
  | none => (s1, [])

/-- Side effects requested by the client-tool dispatcher towards the hosting
application: a theme change (`onThemeRequest`) or a fact save
(`onWidgetAction` with a `FactAction` of type `"save"`). -/
inductive ToolCallback : Type where
  | themeRequest (scheme : String)
  | saveFact (factId : String) (factText : String)
  deriving Repr, DecidableEq, Inhabited

/-- JS regex class `\s` membership for the characters relevant here (the
full class also contains Unicode space separators). -/
def isJsWhitespace (c : Char) : Bool :=
  c = ' ' || c = '\t' || c = '\n' || c = '\r' || c = '\x0b' || c = '\x0c'

/-- `replace(/\s+/g, " ")` on a character list: each maximal run of whitespace
becomes a single space (emitted at the run's last character). -/
def collapseWhitespace : List Char → List Char
  | [] => []
  | [c] => if isJsWhitespace c then [' '] else [c]
  | c1 :: c2 :: rest =>
    if isJsWhitespace c1 && isJsWhitespace c2 then collapseWhitespace (c2 :: rest)
    else (if isJsWhitespace c1 then ' ' else c1) :: collapseWhitespace (c2 :: rest)

/-- `trim()` with the JS whitespace class. -/
def trimJsWhitespace (l : List Char) : List Char :=
  ((l.dropWhile isJsWhitespace).reverse.dropWhile isJsWhitespace).reverse

/-- `text.replace(/\s+/g, " ").trim()` — the fact-text normalization. -/
def normalizeFactText (s : String) : String :=
  String.mk (trimJsWhitespace (collapseWhitespace s.data))

/-- `String((invocation.params as any).fact_id ?? "")`. -/
def factIdOf (params : JsonVal) : String :=
  jsCoalesceString (params.getField "fact_id")

/-- `String((invocation.params as any).fact_text ?? "")`. -/
def factTextOf (params : JsonVal) : String :=
  jsCoalesceString (params.getField "fact_text")

/-- The `onClientTool` dispatcher.  Returns the new state, the `success` flag
of the result record, and the callbacks fired towards the hosting application.
`switch_theme` accepts exactly `"light"` and `"dark"`; `record_fact` is an
idempotent no-op on an empty or already-processed identifier, and otherwise
marks the identifier processed and fires the save callback with normalized
text; any other name fails. -/
def onClientTool (name : String) (params : JsonVal) (s : PanelState) :
    PanelState × Bool × List ToolCallback :=
  if name = "switch_theme" then
    match params.getField "theme" with
    | some (.str "light") => (s, true, [.themeRequest "light"])
    | some (.str "dark") => (s, true, [.themeRequest "dark"])
    | _ => (s, false, [])
  else if name = "record_fact" then
    let id := factIdOf params
    let text := factTextOf params
    if id = "" || s.processedFacts.contains id then (s, true, [])
    else
      ({ s with processedFacts := id :: s.processedFacts }, true,
       [.saveFact id (normalizeFactText text)])
  else (s, false, [])

/-- The `onThreadChange` callback: the processed-fact set is cleared. -/
def handleThreadChange (s : PanelState) : PanelState :=
  { s with processedFacts := [] }

/-- `errors.session ?? errors.integration`. -/
def activeError (e : ErrorState) : Option String :=
  match e.session with
  | some m => some m
  | none => e.integration

/-- `errors.script ?? activeError` — the single blocking error surfaced by the
overlay. -/
def blockingError (e : ErrorState) : Option String :=
  match e.script with
  | some m => some m
  | none => activeError e

/-- The overlay's retry condition: `blockingError && errors.retryable` decides
whether `onRetry` is wired to `handleResetChat`. -/
def retryAffordance (s : PanelState) : Bool :=
  (blockingError s.errors).isSome && s.errors.retryable

/-- Every event the mounted panel can observe: environment script signals, the
unconfigured-workflow effect, a completed `getClientSecret` call, response
start/end, widget actions, client-tool invocations, thread changes, and the
explicit reset. -/
inductive PanelEvent : Type where
  | scriptLoaded
  | scriptError (detail : String)
  | scriptTimeout (elementRegistered : Bool)
  | workflowUnconfigured
  | clientSecret (workflowId : String) (currentSecret : Option String)
      (fetchResult : Except String HttpResponse)
  | responseStart
  | responseEnd
  | widgetAction (a : WidgetAction)
  | clientTool (name : String) (params : JsonVal)
  | threadChange
  | reset (elementRegistered : Bool)

/-- The state transition performed by one event (outputs discarded). -/
def step (s : PanelState) : PanelEvent → PanelState
  | .scriptLoaded => handleScriptLoaded s
  | .scriptError detail => handleScriptError detail s
  | .scriptTimeout reg => scriptTimeout reg s
  | .workflowUnconfigured => markWorkflowUnconfigured s
  | .clientSecret wf cur fr => (getClientSecret wf cur fr s).2
  | .responseStart => handleResponseStart s
  | .responseEnd => (handleResponseEnd s).1
  | .widgetAction a => (widgetsOnAction a s).1
  | .clientTool name params => (onClientTool name params s).1
  | .threadChange => handleThreadChange s
  | .reset reg => handleResetChat reg s

/-- Running a sequence of events from a state. -/
def run (s : PanelState) (events : List PanelEvent) : PanelState :=
  events.foldl step s

lemma probe_step (o : Option JsonVal) (rest : String) :
    (match o with
      | some (JsonVal.str s) => s
      | _ => rest) =
    (match asString o with
      | some s => s
      | none => rest) := by
  rcases o with _ | v
  · rfl
  rcases v with s | n | b | _ | f | l <;> rfl

lemma firstSome_getD_cons (p : Option String) (ps : List (Option String))
    (fb : String) :
    (firstSome (p :: ps)).getD fb =
    (match p with
      | some s => s
      | none => (firstSome ps).getD fb) := by
  rcases p with _ | s <;> simp [firstSome]

/-- Claim C3: for every error-response payload and fallback string,
`extractErrorDetail` probes the payload deterministically in the spec's order —
top-level string `error`, then string `error.message`, then string `details`,
then `details.error` as a string, then string `details.error.message`, then
top-level string `message`, and finally the fallback — returning the first
match (hence always a string). -/
theorem claim_C3_extractErrorDetail_order (payload : JsonVal) (fallback : String) :
    extractErrorDetail payload fallback = extractErrorDetailSpec payload fallback := by
  unfold extractErrorDetail extractErrorDetailSpec
  simp only [probe_step, firstSome_getD_cons, firstSome, Option.getD_none]

/-- Claim C6: in every state, the single blocking error surfaced to the user
is exactly the first non-null of the script, session and integration channels,
in that priority order, and when all three are null no blocking error is
surfaced. -/
theorem claim_C6_blocking_error_priority (e : ErrorState) :
    blockingError e = firstSome [e.script, e.session, e.integration] ∧
    (e.script = none → e.session = none → e.integration = none →
      blockingError e = none) := by
  constructor
  · rcases e with ⟨sc, se, i, r⟩
    rcases sc with _ | m <;> rcases se with _ | m' <;> rcases i with _ | m'' <;>
      simp [blockingError, activeError, firstSome]
  · intro h1 h2 h3
    simp [blockingError, activeError, h1, h2, h3]

/-- Witness for claim C6 at the initial error record. -/
theorem claim_C6_witness : blockingError createInitialErrors = none :=
  (claim_C6_blocking_error_priority createInitialErrors).2 rfl rfl rfl

/-- Claim C7: after `handleResetChat`, the error record equals the initial
all-null value with `retryable` false, the processed-fact set is empty,
`isInitializingSession` is true, the script status is recomputed from the
environment (`ready` iff the custom element is registered), and the widget
instance counter is incremented by one. -/
theorem claim_C7_reset_completeness (reg : Bool) (s : PanelState) :
    (handleResetChat reg s).errors = createInitialErrors ∧
    (handleResetChat reg s).errors.script = none ∧
    (handleResetChat reg s).errors.session = none ∧
    (handleResetChat reg s).errors.integration = none ∧
    (handleResetChat reg s).errors.retryable = false ∧
    (handleResetChat reg s).processedFacts = [] ∧
    (handleResetChat reg s).isInitializingSession = true ∧
    (handleResetChat reg s).scriptStatus =
      (if reg then ScriptStatus.ready else ScriptStatus.pending) ∧
    (handleResetChat reg s).widgetInstanceKey = s.widgetInstanceKey + 1 := by
  simp [handleResetChat, createInitialErrors]

lemma getClientSecret_retryable_false (wf : String) (cur : Option String)
    (fr : Except String HttpResponse) (s : PanelState) :
    ((getClientSecret wf cur fr s).2).errors.retryable = false := by
  unfold getClientSecret
  split
  · simp
  · rcases fr with msg | resp
    · rcases hc : cur with _ | sec <;> simp [hc]
    · by_cases hok : resp.ok <;> by_cases hcs : jsFalsy (clientSecretOf resp) <;>
        rcases hc : cur with _ | sec <;> simp [hok, hcs, hc]

lemma handleResponseEnd_errors (s : PanelState) :
    (handleResponseEnd s).1.errors = s.errors := by
  rcases hq : s.queuedClick with _ | t
  · simp [handleResponseEnd, hq]
  · by_cases ht : t = "" <;> simp [handleResponseEnd, hq, ht]

lemma widgetsOnAction_errors (a : WidgetAction) (s : PanelState) :
    (widgetsOnAction a s).1.errors = s.errors := by
  by_cases hf : jsFalsy (deriveActionValue a) <;>
    by_cases hr : s.isResponding <;> simp [widgetsOnAction, hf, hr]

lemma onClientTool_errors (name : String) (params : JsonVal) (s : PanelState) :
    (onClientTool name params s).1.errors = s.errors := by
  unfold onClientTool
  split
  · split <;> rfl
  · split
    · by_cases h : factIdOf params = "" ∨ factIdOf params ∈ s.processedFacts <;>
        simp [h]
    · rfl

lemma step_retryable_false (s : PanelState) (e : PanelEvent)
    (h : s.errors.retryable = false) : (step s e).errors.retryable = false := by
  cases e with
  | scriptLoaded => simpa [step, handleScriptLoaded] using h
  | scriptError detail => simp [step, handleScriptError]
  | scriptTimeout reg =>
    by_cases hreg : reg = true <;>
      simp [step, scriptTimeout, handleScriptError, hreg, h]
  | workflowUnconfigured => simp [step, markWorkflowUnconfigured]
  | clientSecret wf cur fr => exact getClientSecret_retryable_false wf cur fr s
  | responseStart => simp [step, handleResponseStart]
  | responseEnd => simpa [step, handleResponseEnd_errors] using h
  | widgetAction a => simpa [step, widgetsOnAction_errors] using h
  | clientTool name params => simpa [step, onClientTool_errors] using h
  | threadChange => simpa [step, handleThreadChange] using h
  | reset reg => simp [step, handleResetChat, createInitialErrors]

/-- Claim C9: in every state reachable from mount by any sequence of events,
the `retryable` flag is false, and consequently the overlay's retry
affordance condition (`blockingError && errors.retryable`) never holds. -/
theorem claim_C9_retryable_never_true (reg : Bool) (events : List PanelEvent) :
    (run (initialPanelState reg) events).errors.retryable = false ∧
    retryAffordance (run (initialPanelState reg) events) = false := by
  have main : ∀ (l : List PanelEvent) (s : PanelState),
      s.errors.retryable = false → (run s l).errors.retryable = false := by
    intro l
    induction l with
    | nil => exact fun s h => h
    | cons e t ih => exact fun s h => ih (step s e) (step_retryable_false s e h)
  have h := main events (initialPanelState reg) rfl
  exact ⟨h, by simp [retryAffordance, h]⟩

/-- Claim C1: while a model response is streaming (`isResponding` latched), a
widget action whose derived text is non-empty is stored in the one-slot queue
and nothing is sent; a second such action before the flush overwrites the
queued text; when the response-end signal fires with a non-empty queue the
queued text is sent exactly once and the slot is cleared (a further
response-end sends nothing). -/
theorem claim_C1_queue_while_streaming (s : PanelState) (a a' : WidgetAction)
    (t t' : String)
    (hs : s.isResponding = true)
    (ha : deriveActionValue a = JsonVal.str t) (ht : t ≠ "")
    (ha' : deriveActionValue a' = JsonVal.str t') (ht' : t' ≠ "") :
    widgetsOnAction a s = ({ s with queuedClick := some t }, [], []) ∧
    widgetsOnAction a' { s with queuedClick := some t } =
      ({ s with queuedClick := some t' }, [], []) ∧
    handleResponseEnd { s with queuedClick := some t' } =
      ({ s with isResponding := false, queuedClick := none }, [t']) ∧
    (handleResponseEnd
      { s with isResponding := false, queuedClick := none }).2 = [] := by
  refine ⟨?_, ?_, ?_, ?_⟩
  · simp [widgetsOnAction, ha, jsFalsy, ht, hs, jsToString]
  · simp [widgetsOnAction, ha', jsFalsy, ht', hs, jsToString]
  · simp [handleResponseEnd, ht']
  · simp [handleResponseEnd]

/-- Witness for claim C1: with the latch set by a response-start at mount, a
click on a widget button with payload text `Tell me more` is queued, not
sent. -/
theorem claim_C1_witness :
    widgetsOnAction
      ⟨"button.click", some (JsonVal.obj [("text", JsonVal.str "Tell me more")])⟩
      (handleResponseStart (initialPanelState true)) =
    ({ handleResponseStart (initialPanelState true) with
        queuedClick := some "Tell me more" }, [], []) :=
  (claim_C1_queue_while_streaming
    (handleResponseStart (initialPanelState true))
    ⟨"button.click", some (JsonVal.obj [("text", JsonVal.str "Tell me more")])⟩
    ⟨"select", some (JsonVal.obj [("label", JsonVal.str "Second choice")])⟩
    "Tell me more" "Second choice" rfl rfl (by decide) rfl (by decide)).1

/-- Counterexample to claim C8 as stated: with payload
`{text: "", label: "hi"}` the probe `label` yields the non-empty string
`"hi"`, yet the action is ignored (the `??` chain stops at the present empty
`text`); and with payload `{option: "Option A"}` the claimed `option` probe is
skipped and the type tag is sent instead. -/
theorem claim_C8_counterexample :
    widgetsOnAction
      ⟨"button.click",
       some (JsonVal.obj [("text", JsonVal.str ""), ("label", JsonVal.str "hi")])⟩
      (initialPanelState true) = (initialPanelState true, [], []) ∧
    widgetsOnAction
      ⟨"poll.select", some (JsonVal.obj [("option", JsonVal.str "Option A")])⟩
      (initialPanelState true) =
      (initialPanelState true, ["poll.select"],
       [("poll.select", JsonVal.obj [("option", JsonVal.str "Option A")])]) :=
  ⟨rfl, rfl⟩

/-- Claim C8 (amended): the display value is the first present (non-nullish)
of the payload's `text`, `label`, `value` — `option` is not probed — then the
action's type tag; the action is ignored (handled, nothing sent) exactly when
that derived value is falsy, and otherwise (outside streaming) its string
form is sent and the structured action forwarded. -/
theorem claim_C8_amended_derivation (a : WidgetAction) (s : PanelState) :
    deriveActionValue a = deriveActionValueSpec a ∧
    (jsFalsy (deriveActionValue a) = true →
      widgetsOnAction a s = (s, [], [])) ∧
    (jsFalsy (deriveActionValue a) = false → s.isResponding = false →
      widgetsOnAction a s =
        (s, [jsToString (deriveActionValue a)],
         [(a.type, actionPayloadOrEmpty a)])) := by
  refine ⟨?_, ?_, ?_⟩
  · unfold deriveActionValue deriveActionValueSpec
    rcases nullishField a.payload "text" with _ | v1 <;>
      rcases nullishField a.payload "label" with _ | v2 <;>
      rcases nullishField a.payload "value" with _ | v3 <;>
      simp [firstPresent]
  · intro hf
    simp [widgetsOnAction, hf]
  · intro hf hr
    simp [widgetsOnAction, hf, hr]

/-- Witness for amended claim C8: a payload whose only present probe is
`value` resolves to that value and is sent as the user message. -/
theorem claim_C8_amended_witness :
    widgetsOnAction
      ⟨"rate", some (JsonVal.obj [("value", JsonVal.str "42")])⟩
      (initialPanelState true) =
    (initialPanelState true, ["42"],
     [("rate", JsonVal.obj [("value", JsonVal.str "42")])]) :=
  (claim_C8_amended_derivation
    ⟨"rate", some (JsonVal.obj [("value", JsonVal.str "42")])⟩
    (initialPanelState true)).2.2 rfl rfl

lemma panelState_ite_errors (c : Prop) [Decidable c] (a b : PanelState) :
    (if c then a else b).errors = if c then a.errors else b.errors := by
  split <;> rfl

/-- Claim C2: `getClientSecret` resolves with the body's `client_secret` iff
the workflow identifier is configured, the response status is ok and the body
carries a non-empty (truthy) `client_secret`.  With the identifier unset it
rejects immediately with the fixed configuration message, independently of any
network outcome, and `isInitializingSession` becomes false; a non-ok status
rejects with the detail extracted from the body; an ok response without a
truthy `client_secret` rejects with `Missing client secret in response`; and
every such failure records the message on the session channel with
`retryable` false. -/
theorem claim_C2_getClientSecret_contract (wf : String) (cur : Option String)
    (resp : HttpResponse) (s : PanelState) :
    (isWorkflowConfigured wf = false →
      ∀ fr fr' : Except String HttpResponse,
        (getClientSecret wf cur fr s).1 =
          Except.error "Set NEXT_PUBLIC_CHATKIT_WORKFLOW_ID in your .env.local file." ∧
        (getClientSecret wf cur fr s).2.isInitializingSession = false ∧
        (getClientSecret wf cur fr s).2.errors.session =
          some "Set NEXT_PUBLIC_CHATKIT_WORKFLOW_ID in your .env.local file." ∧
        (getClientSecret wf cur fr s).2.errors.retryable = false ∧
        getClientSecret wf cur fr s = getClientSecret wf cur fr' s) ∧
    (isWorkflowConfigured wf = true →
      ((∃ v, (getClientSecret wf cur (Except.ok resp) s).1 = Except.ok v) ↔
        (resp.ok = true ∧ jsFalsy (clientSecretOf resp) = false)) ∧
      (resp.ok = true → jsFalsy (clientSecretOf resp) = false →
        (getClientSecret wf cur (Except.ok resp) s).1 =
          Except.ok (clientSecretOf resp)) ∧
      (resp.ok = false →
        (getClientSecret wf cur (Except.ok resp) s).1 =
          Except.error (extractErrorDetail (responseData resp) resp.statusText) ∧
        (getClientSecret wf cur (Except.ok resp) s).2.errors.session =
          some (extractErrorDetail (responseData resp) resp.statusText) ∧
        (getClientSecret wf cur (Except.ok resp) s).2.errors.retryable = false) ∧
      (resp.ok = true → jsFalsy (clientSecretOf resp) = true →
        (getClientSecret wf cur (Except.ok resp) s).1 =
          Except.error "Missing client secret in response" ∧
        (getClientSecret wf cur (Except.ok resp) s).2.errors.session =
          some "Missing client secret in response" ∧
        (getClientSecret wf cur (Except.ok resp) s).2.errors.retryable = false)) := by
  constructor
  · intro hcfg fr fr'
    simp [getClientSecret, hcfg]
  · intro hcfg
    refine ⟨⟨?_, ?_⟩, ?_, ?_, ?_⟩
    · rintro ⟨v, hv⟩
      by_cases hok : resp.ok = true
      · by_cases hcs : jsFalsy (clientSecretOf resp) = true
        · simp [getClientSecret, hcfg, hok, hcs] at hv
        · exact ⟨hok, by simpa using hcs⟩
      · have hok' : resp.ok = false := by simpa using hok
        simp [getClientSecret, hcfg, hok'] at hv
    · rintro ⟨hok, hcs⟩
      exact ⟨clientSecretOf resp, by simp [getClientSecret, hcfg, hok, hcs]⟩
    · intro hok hcs
      simp [getClientSecret, hcfg, hok, hcs]
    · intro hok
      simp [getClientSecret, hcfg, hok, panelState_ite_errors]
    · intro hok hcs
      simp [getClientSecret, hcfg, hok, hcs, panelState_ite_errors]

/-- Witness for claim C2: with the workflow identifier unset, provisioning
rejects with the configuration message and clears the initializing flag. -/
theorem claim_C2_witness :
    (getClientSecret "" none (Except.ok ⟨true, "OK", "", none⟩)
        (initialPanelState true)).1 =
      Except.error "Set NEXT_PUBLIC_CHATKIT_WORKFLOW_ID in your .env.local file." ∧
    (getClientSecret "" none (Except.ok ⟨true, "OK", "", none⟩)
        (initialPanelState true)).2.isInitializingSession = false := by
  have h := (claim_C2_getClientSecret_contract "" none ⟨true, "OK", "", none⟩
    (initialPanelState true)).1 rfl
    (Except.ok ⟨true, "OK", "", none⟩) (Except.ok ⟨true, "OK", "", none⟩)
  exact ⟨h.1, h.2.1⟩

/-- Claim C5: an empty or unparseable response body is substituted by the
empty mapping and provisioning proceeds; any rejection then derives only from
the HTTP status (whose detail probing falls through to the status text) or
from the missing-client-secret check on the empty mapping. -/
theorem claim_C5_parse_tolerance (wf : String) (cur : Option String)
    (resp : HttpResponse) (s : PanelState)
    (hcfg : isWorkflowConfigured wf = true)
    (hbody : resp.raw = "" ∨ resp.parsed = none) :
    responseData resp = JsonVal.obj [] ∧
    (getClientSecret wf cur (Except.ok resp) s).1 =
      (if resp.ok then Except.error "Missing client secret in response"
       else Except.error resp.statusText) := by
  have hdata : responseData resp = JsonVal.obj [] := by
    rcases hbody with h | h <;> simp [responseData, h]
  have hsecret : clientSecretOf resp = JsonVal.str "" := by
    simp [clientSecretOf, hdata, getField]
  refine ⟨hdata, ?_⟩
  by_cases hok : resp.ok = true
  · simp [getClientSecret, hcfg, hok, hsecret, jsFalsy]
  · have hok' : resp.ok = false := by simpa using hok
    simp [getClientSecret, hcfg, hok', hdata, hsecret, extractErrorDetail, getField]

/-- Witness for claim C5: a 500 response with a non-JSON body rejects with
the status text, not a parse failure. -/
theorem claim_C5_witness :
    (getClientSecret "wf_123abc" none
        (Except.ok ⟨false, "Internal Server Error", "<html>oops</html>", none⟩)
        (initialPanelState true)).1 =
      Except.error "Internal Server Error" := by
  have h := (claim_C5_parse_tolerance "wf_123abc" none
    ⟨false, "Internal Server Error", "<html>oops</html>", none⟩
    (initialPanelState true) (by decide) (Or.inr rfl)).2
  simpa using h

/-- Claim C4: dispatching `record_fact` twice with the same identifier invokes
the save callback at most once — the second dispatch never fires it and still
reports success; a dispatch whose identifier is empty or already processed
reports success without firing the callback at all. -/
theorem claim_C4_record_fact_idempotent (params params' : JsonVal)
    (s : PanelState) (hid : factIdOf params' = factIdOf params) :
    (onClientTool "record_fact" params s).2.2.length ≤ 1 ∧
    (onClientTool "record_fact" params'
      (onClientTool "record_fact" params s).1).2.2 = [] ∧
    (onClientTool "record_fact" params'
      (onClientTool "record_fact" params s).1).2.1 = true ∧
    (factIdOf params = "" →
      (onClientTool "record_fact" params s).2.1 = true ∧
      (onClientTool "record_fact" params s).2.2 = []) ∧
    (factIdOf params ∈ s.processedFacts →
      (onClientTool "record_fact" params s).2.1 = true ∧
      (onClientTool "record_fact" params s).2.2 = []) := by
  by_cases hempty : factIdOf params = ""
  · simp [onClientTool, hempty, hid]
  · by_cases hmem : factIdOf params ∈ s.processedFacts
    · simp [onClientTool, hempty, hmem, hid]
    · simp [onClientTool, hempty, hmem, hid]

/-- Witness for claim C4: a repeated `record_fact` with identifier `f1` fires
no save callback on the second dispatch. -/
theorem claim_C4_witness :
    (onClientTool "record_fact"
      (JsonVal.obj [("fact_id", JsonVal.str "f1"), ("fact_text", JsonVal.str "likes tea")])
      (onClientTool "record_fact"
        (JsonVal.obj [("fact_id", JsonVal.str "f1"), ("fact_text", JsonVal.str "likes tea")])
        (initialPanelState true)).1).2.2 = [] :=
  (claim_C4_record_fact_idempotent
    (JsonVal.obj [("fact_id", JsonVal.str "f1"), ("fact_text", JsonVal.str "likes tea")])
    (JsonVal.obj [("fact_id", JsonVal.str "f1"), ("fact_text", JsonVal.str "likes tea")])
    (initialPanelState true) rfl).2.1

/-- Claim C10: a `record_fact` dispatch with a non-empty, unseen identifier
marks the identifier processed in the state the callback observes, reports
success, and fires the save callback with whitespace-normalized text; the
returned record is fixed before the (fire-and-forget) save settles — the
dispatcher takes no input from the save's outcome — so a repeat dispatch with
the same identifier is a successful no-op even if the original save failed. -/
theorem claim_C10_record_fact_no_retry (params : JsonVal) (s : PanelState)
    (hne : factIdOf params ≠ "") (hfresh : factIdOf params ∉ s.processedFacts) :
    (onClientTool "record_fact" params s).1.processedFacts =
      factIdOf params :: s.processedFacts ∧
    factIdOf params ∈ (onClientTool "record_fact" params s).1.processedFacts ∧
    (onClientTool "record_fact" params s).2.1 = true ∧
    (onClientTool "record_fact" params s).2.2 =
      [ToolCallback.saveFact (factIdOf params)
        (normalizeFactText (factTextOf params))] ∧
    (∀ params', factIdOf params' = factIdOf params →
      onClientTool "record_fact" params'
        (onClientTool "record_fact" params s).1 =
      ((onClientTool "record_fact" params s).1, true, [])) := by
  refine ⟨?_, ?_, ?_, ?_, ?_⟩
  · simp [onClientTool, hne, hfresh]
  · simp [onClientTool, hne, hfresh]
  · simp [onClientTool, hne, hfresh]
  · simp [onClientTool, hne, hfresh]
  · intro params' hid
    simp [onClientTool, hne, hfresh, hid]

/-- Witness for claim C10: the first `record_fact` with identifier `f2` marks
it processed and fires the save callback with normalized text. -/
theorem claim_C10_witness :
    (onClientTool "record_fact"
      (JsonVal.obj [("fact_id", JsonVal.str "f2"), ("fact_text", JsonVal.str "  a   b  ")])
      (initialPanelState true)).2.2 =
    [ToolCallback.saveFact "f2" "a b"] := by
  have h := (claim_C10_record_fact_no_retry
    (JsonVal.obj [("fact_id", JsonVal.str "f2"), ("fact_text", JsonVal.str "  a   b  ")])
    (initialPanelState true) (by decide) (by simp [initialPanelState])).2.2.2.1
  simpa using h

end ChatKitPanel
